import Mathlib

/-!
# Verification of the receipt-processor extraction pipeline

Shallow embedding of `src/app/ocr.py` (the text-to-fields extraction core:
`extract_spanish_date`, `extract_vendor`, `extract_total`, `extract_items`,
`validate_receipt_data`, `process_receipt`).  The image-acquisition and OCR
steps (`preprocess_image`, `extract_text_from_image`) are external
collaborators producing the raw text; the pipeline is modelled from the
raw-text boundary, exactly as the Python code consumes it.

Python strings are modelled as `List Char` (wrapped in `String` at the API
surface); Python `re` searches are modelled by a small backtracking engine
(`runK`/`reSearch`) with Python's semantics for leftmost search, greedy
quantifiers, left-first alternation, capture groups, `$`, `\b`, and
single-character lookaround, which is all the source patterns use.
`\d`, `\s` and `\w` are modelled over their ASCII ranges, and `str.lower`
over ASCII letters, which matches all strings the development evaluates.
-/

/-- Python `\d` character class (ASCII decimal digit). -/
def pyIsDigit (c : Char) : Bool := c.isDigit

/-- Python `\s` character class and the whitespace set used by `str.strip()`
and argument-free `str.split()` (ASCII portion). -/
def pyIsSpace (c : Char) : Bool :=
  c = ' ' || c = '\t' || c = '\n' || c = '\r' || c = '\x0b' || c = '\x0c'

/-- Python `\w` (word character, ASCII portion), used by the `\b` assertion. -/
def pyIsWordChar (c : Char) : Bool := c.isAlpha || c.isDigit || c = '_'

/-- Python `str.lower()` on one character (ASCII letters). -/
def pyLowerChar (c : Char) : Char := c.toLower

/-- Python `str.lower()`. -/
def pyLowerL (l : List Char) : List Char := l.map pyLowerChar

/-- Python `str.strip()`: drop leading and trailing whitespace. -/
def pyStripL (l : List Char) : List Char :=
  ((l.dropWhile pyIsSpace).reverse.dropWhile pyIsSpace).reverse

/-- Python argument-free `str.split()`: split on runs of whitespace,
discarding empty pieces.  `acc` holds the (reversed) current word. -/
def pySplitWsAux (acc : List Char) : List Char → List (List Char)
  | [] => if acc.isEmpty then [] else [acc.reverse]
  | c :: t =>
    if pyIsSpace c then
      if acc.isEmpty then pySplitWsAux [] t else acc.reverse :: pySplitWsAux [] t
    else pySplitWsAux (c :: acc) t

/-- Python `s.split()` on a whole string. -/
def pySplitWs (l : List Char) : List (List Char) := pySplitWsAux [] l

/-- Python `s.split(sep)` for a one-character separator keeps empty pieces:
`"".split(sep) == [""]`. -/
def splitOnCharL (sep : Char) : List Char → List (List Char)
  | [] => [[]]
  | c :: t =>
    if c = sep then [] :: splitOnCharL sep t
    else
      match splitOnCharL sep t with
      | h :: r => (c :: h) :: r
      | [] => [[c]]

/-- Does `n` occur as a prefix of `h`? -/
def isPrefixL : List Char → List Char → Bool
  | [], _ => true
  | _ :: _, [] => false
  | a :: n, b :: h => a = b && isPrefixL n h

/-- Python `needle in hay` substring test. -/
def isSubstr (n : List Char) : List Char → Bool
  | [] => isPrefixL n []
  | c :: t => isPrefixL n (c :: t) || isSubstr n t

/-- Python `s.split(sep)[0]`: everything before the first occurrence of a
(nonempty) separator, or all of `s` when the separator does not occur. -/
def splitBefore (sep : List Char) : List Char → List Char
  | [] => []
  | c :: t => if isPrefixL sep (c :: t) then [] else c :: splitBefore sep t

/-- Python `re.sub(r'\d+', '', s)`: each maximal run of digits is replaced by
the empty string, hence every digit character is deleted. -/
def subDigits : List Char → List Char
  | [] => []
  | c :: t => if pyIsDigit c then subDigits t else c :: subDigits t

/-- Python `s.zfill(2)`: left-pad with `'0'` to length two. -/
def pyZfill2 (l : List Char) : List Char :=
  match l with
  | [] => ['0', '0']
  | [c] => ['0', c]
  | l => l

/-- Numeric value of a digit string (Python `int(s)` on digits). -/
def natOfDigits (l : List Char) : Nat :=
  l.foldl (fun a c => a * 10 + (c.toNat - 48)) 0

/-- Decimal digits of a natural number, via explicit fuel so that the
definition reduces in the kernel. -/
def natDigitsAux : Nat → Nat → List Char
  | 0, _ => []
  | f + 1, n =>
    if n < 10 then [Char.ofNat (n + 48)]
    else natDigitsAux f (n / 10) ++ [Char.ofNat (n % 10 + 48)]

/-- Decimal rendering of a natural number. -/
def natStr (n : Nat) : List Char := natDigitsAux (n + 1) n

/-- Join words with single spaces (Python `' '.join(ws)`). -/
def joinSpace : List (List Char) → List Char
  | [] => []
  | [w] => w
  | w :: ws => w ++ ' ' :: joinSpace ws

/-- Join lines with newlines (Python `'\n'.join(ls)`). -/
def joinNl : List (List Char) → List Char
  | [] => []
  | [w] => w
  | w :: ws => w ++ '\n' :: joinNl ws

/-! ## A backtracking regular-expression engine

Enough of Python `re` for the fixed patterns of `ocr.py`: character classes,
concatenation, left-first alternation, greedy `*` (with `?` and bounded
repetition encoded through `alt`), numbered capture groups, `$`, `\b`, and
single-character negative lookahead/lookbehind. -/

/-- Regular expressions, as used by the source patterns. -/
inductive RE where
  | eps : RE
  | cls : (Char → Bool) → RE
  | cat : RE → RE → RE
  | alt : RE → RE → RE
  | star : RE → RE
  | grp : Nat → RE → RE
  | nla : (Char → Bool) → RE
  | nlb : (Char → Bool) → RE
  | wb : RE
  | eos : RE

/-- Continuation frames for the matcher: a regex still to match, or the
closing of capture group `n` opened when the consumed prefix had the recorded
length. -/
inductive RFrame where
  | reF : RE → RFrame
  | endG : Nat → Nat → RFrame

/-- Backtracking matcher.  `prev` is the consumed prefix in reverse (for
lookbehind and `\b`), `rest` the remaining input, `caps` the closed capture
groups, newest first.  Alternatives are tried left first and `star` is
greedy, so the first success is exactly the match Python `re` commits to.
The fuel bounds the number of engine steps; it is decremented on every call
so the recursion is structural and reduces in the kernel. -/
def runK : Nat → List RFrame → List Char → List Char → List (Nat × List Char) →
    Option (List Char × List Char × List (Nat × List Char))
  | 0, _, _, _, _ => none
  | _ + 1, [], prev, rest, caps => some (prev, rest, caps)
  | fuel + 1, f :: k, prev, rest, caps =>
    match f with
    | .endG n sl =>
      runK fuel k prev rest ((n, (prev.take (prev.length - sl)).reverse) :: caps)
    | .reF r =>
      match r with
      | .eps => runK fuel k prev rest caps
      | .cls p =>
        match rest with
        | c :: rest2 => if p c then runK fuel k (c :: prev) rest2 caps else none
        | [] => none
      | .cat a b => runK fuel (.reF a :: .reF b :: k) prev rest caps
      | .alt a b =>
        (runK fuel (.reF a :: k) prev rest caps).orElse
          (fun _ => runK fuel (.reF b :: k) prev rest caps)
      | .star a =>
        (runK fuel (.reF a :: .reF (.star a) :: k) prev rest caps).orElse
          (fun _ => runK fuel k prev rest caps)
      | .grp n a => runK fuel (.reF a :: .endG n prev.length :: k) prev rest caps
      | .nla p =>
        match rest with
        | c :: _ => if p c then none else runK fuel k prev rest caps
        | [] => runK fuel k prev rest caps
      | .nlb p =>
        match prev with
        | c :: _ => if p c then none else runK fuel k prev rest caps
        | [] => runK fuel k prev rest caps
      | .wb =>
        let a := match prev with | c :: _ => pyIsWordChar c | [] => false
        let b := match rest with | c :: _ => pyIsWordChar c | [] => false
        if a != b then runK fuel k prev rest caps else none
      | .eos =>
        match rest with
        | [] => runK fuel k prev rest caps
        | ['\n'] => runK fuel k prev rest caps
        | _ => none

/-- Engine step budget per attempted start position; far above what the fixed
source patterns can consume on the inputs considered here. -/
def reFuel : Nat := 200000

/-- Python `re.search`: try each start position from the left; at the first
position where the pattern matches, return the capture groups. -/
def reSearchAux (r : RE) : List Char → List Char → Option (List (Nat × List Char))
  | prev, [] => (runK reFuel [.reF r] prev [] []).map (fun x => x.2.2)
  | prev, c :: rest =>
    match runK reFuel [.reF r] prev (c :: rest) [] with
    | some (_, _, caps) => some caps
    | none => reSearchAux r (c :: prev) rest

/-- Search a whole string. -/
def reSearch (r : RE) (s : List Char) : Option (List (Nat × List Char)) :=
  reSearchAux r [] s

/-- Python `match.group(n)`: the most recently closed capture of group `n`. -/
def capGet (caps : List (Nat × List Char)) (n : Nat) : Option (List Char) :=
  (caps.find? (fun kv => kv.1 = n)).map (fun kv => kv.2)

/-- Literal single character. -/
def rchr (c : Char) : RE := .cls (fun x => x = c)

/-- Literal string. -/
def rstr (s : String) : RE := s.data.foldr (fun c acc => RE.cat (rchr c) acc) RE.eps

/-- Concatenation of a list of regexes. -/
def rcat (l : List RE) : RE := l.foldr RE.cat RE.eps

/-- Left-first alternation of a list of regexes. -/
def raltList : List RE → RE
  | [] => .cls (fun _ => false)
  | [r] => r
  | r :: rs => .alt r (raltList rs)

/-- Greedy `?`. -/
def ropt (r : RE) : RE := .alt r .eps

/-- The `\d` class. -/
def rdig : RE := .cls pyIsDigit

/-- The `\s` class. -/
def rws : RE := .cls pyIsSpace

/-- `\s+`. -/
def rwsPlus : RE := .cat rws (.star rws)

/-- `\d{2}`. -/
def rd2 : RE := rcat [rdig, rdig]

/-- `\d{4}`. -/
def rd4 : RE := rcat [rdig, rdig, rdig, rdig]

/-- `\d{1,2}` (greedy: two digits preferred). -/
def rd12 : RE := .cat rdig (ropt rdig)

/-- `\d{1,3}` (greedy). -/
def rd13 : RE := .cat rdig (ropt (.cat rdig (ropt rdig)))

/-- `\d{2,4}` (greedy). -/
def rd24 : RE := rcat [rdig, rdig, ropt (.cat rdig (ropt rdig))]

/-- `\d{3}`. -/
def rd3 : RE := rcat [rdig, rdig, rdig]

/-- Character class matching a slash or a dash (written with the slash first or the dash first in the source). -/
def rSlashDash : RE := .cls (fun c => c = '/' || c = '-')

/-! ## Date extraction (`extract_spanish_date`, `ocr.py` lines 79-118) -/

/-- The `SPANISH_MONTHS` table.  In the source this is a Python `set`
literal, whose iteration order is implementation-defined; every use below is
order-independent (the regex alternatives built from it are pairwise
non-overlapping at any match position, and the indexing branch that would
depend on enumeration order is unreachable), so the calendar order of the
literal is used. -/
def SPANISH_MONTHS : List String :=
  ["enero", "febrero", "marzo", "abril", "mayo", "junio",
   "julio", "agosto", "septiembre", "octubre", "noviembre", "diciembre"]

/-- Literal string from a character list. -/
def rstrL (l : List Char) : RE := l.foldr (fun c acc => RE.cat (rchr c) acc) RE.eps

/-- Python `m[:3]`. -/
def monthAbbrev (m : String) : List Char := m.data.take 3

/-- Alternation `ene|feb|...|dic` (from `m[:3].lower()`; the names are
already lower case). -/
def monthAbbrevAltPlain : RE :=
  raltList (SPANISH_MONTHS.map fun m => rstrL (monthAbbrev m))

/-- Alternation `ene\.?|feb\.?|...|dic\.?`. -/
def monthAbbrevAltDot : RE :=
  raltList (SPANISH_MONTHS.map fun m => RE.cat (rstrL (monthAbbrev m)) (ropt (rchr '.')))

/-- Alternation `enero|febrero|...|diciembre`. -/
def monthFullAlt : RE := raltList (SPANISH_MONTHS.map fun m => rstrL m.data)

/-- Pattern 0: `(?<!\d)(\d{2})[∕-](\d{2})[∕-](\d{4})(?!\d)`. -/
def datePat0 : RE :=
  rcat [.nlb pyIsDigit, .grp 1 rd2, rSlashDash, .grp 2 rd2, rSlashDash,
        .grp 3 rd4, .nla pyIsDigit]

/-- Pattern 1: `(?<!\d)(\d{2})[-∕](<3-letter months>)[-∕](\d{4})(?!\d)`. -/
def datePat1 : RE :=
  rcat [.nlb pyIsDigit, .grp 1 rd2, rSlashDash, .grp 2 monthAbbrevAltPlain,
        rSlashDash, .grp 3 rd4, .nla pyIsDigit]

/-- Pattern 2.  In the source the list is missing a comma between the
`"26 de jun. 2025"` pattern and the `DD/MM/YYYY or DD-MM-YYYY` pattern, so
the two string literals concatenate into this single pattern:
`(\d{1,2})\s+de\s+(<months>\.?)\s+de?\s+(\d{4})(?:\b|\D)(\d{1,2})[∕-](\d{1,2})[∕-](\d{2,4})\b`. -/
def datePat2 : RE :=
  rcat [.grp 1 rd12, rwsPlus, rstr "de", rwsPlus, .grp 2 monthAbbrevAltDot,
        rwsPlus, rchr 'd', ropt (rchr 'e'), rwsPlus, .grp 3 rd4,
        .alt .wb (.cls (fun c => !pyIsDigit c)),
        .grp 4 rd12, rSlashDash, .grp 5 rd12, rSlashDash, .grp 6 rd24, .wb]

/-- Pattern 3: `(\d{1,2})\s+de\s+(<full months>)\s+de\s+(\d{4})`. -/
def datePat3 : RE :=
  rcat [.grp 1 rd12, rwsPlus, rstr "de", rwsPlus, .grp 2 monthFullAlt,
        rwsPlus, rstr "de", rwsPlus, .grp 3 rd4]

/-- Pattern 4: `(\d{1,2})\s+(<months>\.?)\s+(\d{4})`. -/
def datePat4 : RE :=
  rcat [.grp 1 rd12, rwsPlus, .grp 2 monthAbbrevAltDot, rwsPlus, .grp 3 rd4]

/-- The Python source text of each pattern (braces written as `\x7b`/`\x7d`).
The code branches on `len(pattern.split()) > 4`, i.e. on the number of
whitespace-separated pieces of the pattern source string itself, so the
strings are kept alongside the compiled patterns.  The month alternations
are written in calendar order; the source builds them by joining a Python
set, but no order puts literal whitespace into the string, which is all the
branch condition observes. -/
def dateSrc0 : String := "(?<!\\d)(\\d\x7b2\x7d)[/-](\\d\x7b2\x7d)[/-](\\d\x7b4\x7d)(?!\\d)"

/-- Source text of pattern 1. -/
def dateSrc1 : String :=
  "(?<!\\d)(\\d\x7b2\x7d)[-/](ene|feb|mar|abr|may|jun|jul|ago|sep|oct|nov|dic)[-/](\\d\x7b4\x7d)(?!\\d)"

/-- Source text of pattern 2 (the accidental concatenation of two list
entries; see `datePat2`). -/
def dateSrc2 : String :=
  "(\\d\x7b1,2\x7d)\\s+de\\s+(ene\\.?|feb\\.?|mar\\.?|abr\\.?|may\\.?|jun\\.?|jul\\.?|ago\\.?|sep\\.?|oct\\.?|nov\\.?|dic\\.?)\\s+de?\\s+(\\d\x7b4\x7d)(?:\\b|\\D)(\\d\x7b1,2\x7d)[/-](\\d\x7b1,2\x7d)[/-](\\d\x7b2,4\x7d)\\b"

/-- Source text of pattern 3. -/
def dateSrc3 : String :=
  "(\\d\x7b1,2\x7d)\\s+de\\s+(enero|febrero|marzo|abril|mayo|junio|julio|agosto|septiembre|octubre|noviembre|diciembre)\\s+de\\s+(\\d\x7b4\x7d)"

/-- Source text of pattern 4. -/
def dateSrc4 : String :=
  "(\\d\x7b1,2\x7d)\\s+(ene\\.?|feb\\.?|mar\\.?|abr\\.?|may\\.?|jun\\.?|jul\\.?|ago\\.?|sep\\.?|oct\\.?|nov\\.?|dic\\.?)\\s+(\\d\x7b4\x7d)"

/-- The `patterns` list of `extract_spanish_date`: five entries, because the
missing comma merged two of the six intended ones. -/
def DATE_PATTERNS : List (String × RE) :=
  [(dateSrc0, datePat0), (dateSrc1, datePat1), (dateSrc2, datePat2),
   (dateSrc3, datePat3), (dateSrc4, datePat4)]

/-- The month-index lookup of the text-month branch:
`str([i+1 for i, m in enumerate(SPANISH_MONTHS) if m.startswith(month_str[:3])][0])`.
`none` corresponds to the `IndexError` Python would raise on an empty
comprehension; the branch containing this lookup is unreachable (see
`month_resolution_amended`), so neither case is ever exercised. -/
def monthResolve (month_str : List Char) : Option String :=
  match (SPANISH_MONTHS.enum.filter fun im =>
      isPrefixL (month_str.take 3) im.2.data).head? with
  | some im => some ⟨natStr (im.1 + 1)⟩
  | none => none

/-- Processing of a successful match: `day = group(1)`; if
`len(pattern.split()) > 4` the month text is resolved through
`SPANISH_MONTHS`, otherwise `month = group(2)` verbatim; `year = group(3)`;
two-digit years are widened with the 30 pivot; the result is
`day.zfill(2)/month.zfill(2)/year`.  Groups 1-3 are mandatory in every
pattern, so the final fallback arm never fires on a real match. -/
def processDateMatch (src : String) (caps : List (Nat × List Char)) : Option String :=
  match capGet caps 1, capGet caps 2, capGet caps 3 with
  | some day, some g2, some year =>
    let monthOpt : Option (List Char) :=
      if 4 < (pySplitWs src.data).length then (monthResolve g2).map String.data
      else some g2
    match monthOpt with
    | none => none
    | some month =>
      let year2 :=
        if year.length = 2 then
          if natOfDigits year < 30 then '2' :: '0' :: year else '1' :: '9' :: year
        else year
      some ⟨pyZfill2 day ++ '/' :: (pyZfill2 month ++ '/' :: year2)⟩
  | _, _, _ => none

/-- The pattern loop of `extract_spanish_date`: first matching pattern wins. -/
def extract_spanish_dateL : List (String × RE) → List Char → Option String
  | [], _ => none
  | (src, r) :: ps, t =>
    match reSearch r t with
    | some caps => processDateMatch src caps
    | none => extract_spanish_dateL ps t

/-- `extract_spanish_date(text)`: search the five patterns over
`text.lower()`, returning `None` when nothing matches. -/
def extract_spanish_date (text : String) : Option String :=
  extract_spanish_dateL DATE_PATTERNS (pyLowerL text.data)

/-! ## Vendor extraction (`extract_vendor`, `ocr.py` lines 120-137) -/

/-- The vendor `blacklist` set; only its members are observed (through
`any`), so iteration order is irrelevant. -/
def VENDOR_BLACKLIST : List String :=
  ["espacio para", "logo", "nota", "factura", "recibo", "cod", "fecha", "nit",
   "gran contribuyente"]

/-- Line filter of `extract_vendor`:
`line and len(line) > 3 and not any(word in line.lower() for word in blacklist)`
applied to the stripped line; `len(line) > 3` subsumes truthiness of `line`. -/
def vendorLineOk (l : List Char) : Bool :=
  let line := pyStripL l
  3 < line.length && !(VENDOR_BLACKLIST.any fun w => isSubstr w.data (pyLowerL line))

/-- Cleanup of a chosen line:
`line.split('NIT')[0].split('Nit')[0].split('RUT')[0].split('RUC')[0]`,
then `re.sub(r'\d+', '', vendor).strip()`. -/
def vendorClean (line : List Char) : List Char :=
  pyStripL (subDigits (splitBefore "RUC".data (splitBefore "RUT".data
    (splitBefore "Nit".data (splitBefore "NIT".data line)))))

/-- The line loop of `extract_vendor`. -/
def extract_vendorL : List (List Char) → String
  | [] => "Vendedor desconocido"
  | l :: rest =>
    if vendorLineOk l then
      let vendor := vendorClean (pyStripL l)
      if vendor.isEmpty then "VENDEDOR NO ENCONTRADO" else ⟨vendor⟩
    else extract_vendorL rest

/-- `extract_vendor(text)`. -/
def extract_vendor (text : String) : String :=
  extract_vendorL (splitOnCharL '\n' text.data)

/-! ## Item extraction (`extract_items`, `ocr.py` lines 171-181) -/

/-- Tail of the price pattern, `[\.,]\d{2}`, at the current position. -/
def matchPriceTail : List Char → Bool
  | sep :: a :: b :: _ => (sep = '.' || sep = ',') && pyIsDigit a && pyIsDigit b
  | _ => false

/-- The pattern `\d+[\.,]\d{2}` anchored at the current position: one digit,
then either further digits of the `\d+` or the `[\.,]\d{2}` tail. -/
def matchPriceFrom : List Char → Bool
  | [] => false
  | c :: rest => pyIsDigit c && (matchPriceFrom rest || matchPriceTail rest)

/-- Truthiness of `re.search(r'\d+[\.,]\d{2}', line)`: the anchored pattern
matches at some start position. -/
def searchPrice : List Char → Bool
  | [] => false
  | c :: rest => matchPriceFrom (c :: rest) || searchPrice rest

/-- Line cleanup `' '.join(line.strip().split())`. -/
def cleanLineL (l : List Char) : List Char := joinSpace (pySplitWs (pyStripL l))

/-- `extract_items(text)`: keep the lines containing a price-shaped token,
cleaned, joined by newlines; sentinel when none qualifies. -/
def extract_items (text : String) : String :=
  let ls := (splitOnCharL '\n' text.data).filter searchPrice
  if ls.isEmpty then "ARTÍCULOS NO ENCONTRADOS"
  else ⟨joinNl (ls.map cleanLineL)⟩

/-! ## Total extraction (`extract_total`, `ocr.py` lines 139-169) -/

/-- Keyword list selecting the `total_lines` candidates. -/
def TOTAL_KEYWORDS : List String := ["total", "pagar", "importe"]

/-- Pattern `(\d{1,3}(?:\.\d{3})*(?:,\d{2}))\s*(?:$|€|usd)` — a `1.000,00`
shape.  `$` inside the trailing group is the end-of-string anchor. -/
def totalPat1 : RE :=
  rcat [.grp 1 (rcat [rd13, .star (.cat (rchr '.') rd3), rchr ',', rdig, rdig]),
        .star rws, raltList [.eos, rchr '€', rstr "usd"]]

/-- Pattern `(\$\s*\d{1,3}(?:\.\d{3})*(?:,\d{2}))` — a `$ 1.000,00` shape. -/
def totalPat2 : RE :=
  .grp 1 (rcat [rchr '$', .star rws, rd13, .star (.cat (rchr '.') rd3),
                rchr ',', rdig, rdig])

/-- Pattern `(\d{1,3}(?:,\d{3})*(?:\.\d{2}))\s*(?:$|€|usd)` — a `1,000.00`
shape. -/
def totalPat3 : RE :=
  rcat [.grp 1 (rcat [rd13, .star (.cat (rchr ',') rd3), rchr '.', rdig, rdig]),
        .star rws, raltList [.eos, rchr '€', rstr "usd"]]

/-- The `patterns` list of `extract_total`. -/
def TOTAL_PATTERNS : List RE := [totalPat1, totalPat2, totalPat3]

/-- Python `float(s)` restricted to the strings the normalisation step can
produce (digits, dots and commas only): it succeeds exactly on nonempty
digit strings with at most one dot and at least one digit, yielding the
exact decimal value `num / 10 ^ flen`; any comma or a second dot raises
`ValueError`, modelled as `none`. -/
def parseDecimal (s : List Char) : Option (Nat × Nat) :=
  match splitOnCharL '.' s with
  | [ip] => if !ip.isEmpty && ip.all pyIsDigit then some (natOfDigits ip, 0) else none
  | [ip, fp] =>
    if !(ip.isEmpty && fp.isEmpty) && ip.all pyIsDigit && fp.all pyIsDigit then
      some (natOfDigits (ip ++ fp), fp.length)
    else none
  | _ => none

/-- Round `a / d` to the nearest integer, ties to even (`d > 0`). -/
def roundHalfEven (a d : Nat) : Nat :=
  let q := a / d
  let r := a % d
  if 2 * r < d then q else if d < 2 * r then q + 1 else if q % 2 = 0 then q else q + 1

/-- Two left-zero-padded decimal digits. -/
def pad2 (n : Nat) : List Char := if n < 10 then '0' :: natStr n else natStr n

/-- The normalisation and formatting step of `extract_total`:
`amount.replace('$', '').replace(' ', '')`, the separator rules, then
`f"${float(amount):.2f}".replace('.', ',')`, with `ValueError` as `none`.
The round trip through a binary double in the f-string is modelled as exact
decimal rounding to hundredths (ties to even); the two agree on every
amount whose fractional part has at most two digits, which covers all
inputs evaluated in this development. -/
def formatTotalAmount (amt : List Char) : Option String :=
  let a1 := amt.filter fun c => !(c = '$' || c = ' ')
  let hasDot := a1.any fun c => c = '.'
  let hasComma := a1.any fun c => c = ','
  let a2 :=
    if hasDot && hasComma then
      (a1.filter fun c => !(c = '.')).map (fun c => if c = ',' then '.' else c)
    else if hasComma then a1.filter fun c => !(c = ',')
    else a1
  match parseDecimal a2 with
  | none => none
  | some (num, flen) =>
    let h := roundHalfEven (num * 100) (10 ^ flen)
    some ⟨'$' :: (natStr (h / 100) ++ ',' :: pad2 (h % 100))⟩

/-- Inner pattern loop of `extract_total` over one candidate line; a
`ValueError` from `float` continues with the next pattern. -/
def totalTryPatterns : List RE → List Char → Option String
  | [], _ => none
  | p :: ps, line =>
    match reSearch p line with
    | some caps =>
      match capGet caps 1 with
      | some amt =>
        match formatTotalAmount amt with
        | some out => some out
        | none => totalTryPatterns ps line
      | none => totalTryPatterns ps line
    | none => totalTryPatterns ps line

/-- Outer candidate loop of `extract_total`. -/
def totalTryCands : List (List Char) → String
  | [] => "TOTAL NO ENCONTRADO"
  | c :: rest =>
    match totalTryPatterns TOTAL_PATTERNS c with
    | some s => s
    | none => totalTryCands rest

/-- `extract_total(text)`: candidates are the lower-cased lines containing a
keyword of `TOTAL_KEYWORDS`, followed by the whole (original-case) text. -/
def extract_total (text : String) : String :=
  let lines := splitOnCharL '\n' text.data
  let total_lines := (lines.filter fun l =>
    TOTAL_KEYWORDS.any fun w => isSubstr w.data (pyLowerL l)).map pyLowerL
  totalTryCands (total_lines ++ [text.data])

/-! ## Validation and the pipeline (`validate_receipt_data`,
`process_receipt`, `ocr.py` lines 183-234) -/

/-- Pre-validation record assembled by `process_receipt`.  Fields are
`Option String` because a Python dict value can be `None` (the date
extractor's absence signal) and `validate_receipt_data` reads every field
through `data.get`. -/
structure ReceiptData where
  fecha : Option String
  vendedor : Option String
  total : Option String
  articulos : Option String
  texto_crudo : Option String
  deriving Repr, DecidableEq

/-- One entry of the `validation` table. -/
structure FieldCheck where
  required : Bool
  valid : Bool
  deriving Repr, DecidableEq

/-- The record after validation: the five data fields plus the three keys
added by `validate_receipt_data`. -/
structure ValidatedReceipt where
  fecha : Option String
  vendedor : Option String
  total : Option String
  articulos : Option String
  texto_crudo : Option String
  es_valido : Bool
  campos_faltantes : List String
  validation_details : List (String × FieldCheck)
  deriving Repr, DecidableEq

/-- Rule for `fecha`: `bool(data.get('fecha')) and data['fecha'] != "None"`
(truthiness, then comparison against the literal string `"None"`). -/
def fechaFieldValid : Option String → Bool
  | none => false
  | some s => !s.isEmpty && s != "None"

/-- Rule for `vendedor` and `total`:
`bool(data.get(k)) and "NO ENCONTRADO" not in data[k]`. -/
def foundFieldValid : Option String → Bool
  | none => false
  | some s => !s.isEmpty && !(isSubstr "NO ENCONTRADO".data s.data)

/-- `validate_receipt_data(data)`: build the `validation` table in dict
insertion order, compute `es_valido` and `campos_faltantes`, and return
`data.copy()` updated with the three new keys (the input is not mutated;
the embedding is pure and copies every field). -/
def validate_receipt_data (d : ReceiptData) : ValidatedReceipt :=
  let validation : List (String × FieldCheck) :=
    [("fecha", ⟨true, fechaFieldValid d.fecha⟩),
     ("vendedor", ⟨true, foundFieldValid d.vendedor⟩),
     ("total", ⟨true, foundFieldValid d.total⟩)]
  { fecha := d.fecha
    vendedor := d.vendedor
    total := d.total
    articulos := d.articulos
    texto_crudo := d.texto_crudo
    es_valido := (validation.filter fun kv => kv.2.required).all fun kv => kv.2.valid
    campos_faltantes :=
      (validation.filter fun kv => kv.2.required && !kv.2.valid).map fun kv => kv.1
    validation_details := validation }

/-- `process_receipt`: the extraction pipeline from the raw-text boundary.
In the source the raw text is produced first by the external recognizer
(`extract_text_from_image`, out of the extraction core); from that point on
the function assembles the record below and validates it. -/
def process_receipt (raw_text : String) : ValidatedReceipt :=
  validate_receipt_data
    { fecha := extract_spanish_date raw_text
      vendedor := some (extract_vendor raw_text)
      total := some (extract_total raw_text)
      articulos := some (extract_items raw_text)
      texto_crudo := some raw_text }

/-! ## Specification-side restatement of the item extractor (§4.5)

For the refinement claim about `extract_items`, the predicate "the line
contains a decimal-shaped price token (digits, a dot or comma, exactly two
trailing digits)" is stated declaratively and also as an independent scan,
to be compared with the source's regex search. -/

/-- Declarative containment predicate from the specification's words: some
substring of the line is a nonempty digit run, then a dot or a comma, then
two digits. -/
def specHasPriceToken (l : List Char) : Prop :=
  ∃ pre ds sep d1 d2 post, l = pre ++ ds ++ sep :: d1 :: d2 :: post ∧
    ds ≠ [] ∧ ds.all pyIsDigit = true ∧ (sep = '.' ∨ sep = ',') ∧
    pyIsDigit d1 = true ∧ pyIsDigit d2 = true

/-- Executable rendition of the specification predicate: scan for a window
of one digit, a separator and two digits (the last digit of the run, the
separator and the two trailing digits). -/
def specPriceWindow : List Char → Bool
  | a :: b :: c :: d :: rest =>
    (pyIsDigit a && (b = '.' || b = ',') && pyIsDigit c && pyIsDigit d) ||
      specPriceWindow (b :: c :: d :: rest)
  | _ => false

/-- The item extractor as the specification words it: keep, in order, the
lines containing a decimal-shaped price token, each whitespace-normalized,
newline-joined; the fixed sentinel when no line qualifies. -/
def spec_extract_items (text : String) : String :=
  let ls := (splitOnCharL '\n' text.data).filter specPriceWindow
  if ls.isEmpty then "ARTÍCULOS NO ENCONTRADOS"
  else ⟨joinNl (ls.map cleanLineL)⟩

set_option maxRecDepth 8000

/-! ## Helper lemmas -/

/-- Stripping digit runs leaves no digit behind. -/
theorem subDigits_no_digit (l : List Char) :
    (subDigits l).all (fun c => !pyIsDigit c) = true := by
  induction l with
  | nil => rfl
  | cons c t ih =>
    cases h : pyIsDigit c with
    | true => simpa [subDigits, h] using ih
    | false => simp [subDigits, h, ih]

/-- Characters of a stripped string come from the original string. -/
theorem pyStripL_subset {c : Char} {l : List Char} (h : c ∈ pyStripL l) : c ∈ l := by
  rw [pyStripL, List.mem_reverse] at h
  have h2 := (List.dropWhile_sublist _).subset h
  rw [List.mem_reverse] at h2
  exact (List.dropWhile_sublist _).subset h2

/-- Stripping preserves a pointwise property. -/
theorem pyStripL_all {p : Char → Bool} {l : List Char} (h : l.all p = true) :
    (pyStripL l).all p = true := by
  rw [List.all_eq_true] at h ⊢
  exact fun c hc => h c (pyStripL_subset hc)

/-- Every result of the vendor line loop is one of the two sentinels or the
cleaned form of some line. -/
theorem extract_vendorL_spec (ls : List (List Char)) :
    extract_vendorL ls = "Vendedor desconocido" ∨
    extract_vendorL ls = "VENDEDOR NO ENCONTRADO" ∨
    ∃ l, extract_vendorL ls = ⟨vendorClean (pyStripL l)⟩ ∧
      (vendorClean (pyStripL l)).isEmpty = false := by
  induction ls with
  | nil => exact Or.inl rfl
  | cons l rest ih =>
    cases hok : vendorLineOk l with
    | false => simpa [extract_vendorL, hok] using ih
    | true =>
      cases he : (vendorClean (pyStripL l)).isEmpty with
      | true => exact Or.inr (Or.inl (by simp [extract_vendorL, hok, he]))
      | false => exact Or.inr (Or.inr ⟨l, by simp [extract_vendorL, hok, he], he⟩)

/-- The vendor line loop never yields the empty string. -/
theorem extract_vendorL_ne_nil (ls : List (List Char)) : extract_vendorL ls ≠ "" := by
  rcases extract_vendorL_spec ls with h | h | ⟨l, h, he⟩
  · rw [h]; decide
  · rw [h]; decide
  · rw [h]
    intro hc
    have hv : vendorClean (pyStripL l) = [] := congrArg String.data hc
    rw [hv] at he
    cases he

/-- When no line passes the filter, the loop falls through to the final
sentinel. -/
theorem extract_vendorL_all_bad (ls : List (List Char))
    (h : ∀ l ∈ ls, vendorLineOk l = false) :
    extract_vendorL ls = "Vendedor desconocido" := by
  induction ls with
  | nil => rfl
  | cons l rest ih =>
    have h0 := h l (List.mem_cons_self l rest)
    rw [show extract_vendorL (l :: rest) =
        if vendorLineOk l then
          (if (vendorClean (pyStripL l)).isEmpty then "VENDEDOR NO ENCONTRADO"
           else ⟨vendorClean (pyStripL l)⟩)
        else extract_vendorL rest from rfl, h0]
    exact ih fun x hx => h x (List.mem_cons_of_mem _ hx)

/-- Shape of a successful `[\.,]\d{2}` tail match. -/
theorem matchPriceTail_iff (l : List Char) :
    matchPriceTail l = true ↔
      ∃ sep d1 d2 post, l = sep :: d1 :: d2 :: post ∧ (sep = '.' ∨ sep = ',') ∧
        pyIsDigit d1 = true ∧ pyIsDigit d2 = true := by
  match l with
  | [] => simp [matchPriceTail]
  | [a] => simp [matchPriceTail]
  | [a, b] => simp [matchPriceTail]
  | a :: b :: c :: rest =>
    simp only [matchPriceTail, Bool.and_eq_true, Bool.or_eq_true, decide_eq_true_eq]
    constructor
    · rintro ⟨⟨hsep, h1⟩, h2⟩
      exact ⟨a, b, c, rest, rfl, hsep, h1, h2⟩
    · rintro ⟨sep, d1, d2, post, heq, hsep, h1, h2⟩
      injection heq with e1 heq
      injection heq with e2 heq
      injection heq with e3 heq
      subst e1; subst e2; subst e3
      exact ⟨⟨hsep, h1⟩, h2⟩

/-- Shape of a successful anchored `\d+[\.,]\d{2}` match. -/
theorem matchPriceFrom_iff (l : List Char) :
    matchPriceFrom l = true ↔
      ∃ ds r, l = ds ++ r ∧ ds ≠ [] ∧ ds.all pyIsDigit = true ∧
        matchPriceTail r = true := by
  induction l with
  | nil =>
    simp only [matchPriceFrom, Bool.false_eq_true, false_iff]
    rintro ⟨ds, r, heq, hne, -, -⟩
    cases ds with
    | nil => exact hne rfl
    | cons a t => simp at heq
  | cons c t ih =>
    simp only [matchPriceFrom, Bool.and_eq_true, Bool.or_eq_true]
    constructor
    · rintro ⟨hc, hrest | htail⟩
      · obtain ⟨ds, r, heq, hne, hall, ht⟩ := ih.mp hrest
        refine ⟨c :: ds, r, by rw [heq]; rfl, by simp, ?_, ht⟩
        simp [hc, hall]
      · exact ⟨[c], t, rfl, by simp, by simp [hc], htail⟩
    · rintro ⟨ds, r, heq, hne, hall, ht⟩
      cases ds with
      | nil => exact absurd rfl hne
      | cons a ds2 =>
        injection heq with e1 e2
        subst e1
        rw [List.all_cons, Bool.and_eq_true] at hall
        refine ⟨hall.1, ?_⟩
        cases ds2 with
        | nil =>
          right
          rw [e2]
          exact ht
        | cons b ds3 =>
          left
          exact ih.mpr ⟨b :: ds3, r, e2, by simp, hall.2, ht⟩

/-- A search success is an anchored success at some split. -/
theorem searchPrice_iff_from (l : List Char) :
    searchPrice l = true ↔
      ∃ pre suf, l = pre ++ suf ∧ matchPriceFrom suf = true := by
  induction l with
  | nil =>
    simp only [searchPrice, Bool.false_eq_true, false_iff]
    rintro ⟨pre, suf, heq, hm⟩
    have hs : suf = [] := by
      cases pre <;> simp_all
    rw [hs] at hm
    cases hm
  | cons c t ih =>
    simp only [searchPrice, Bool.or_eq_true]
    constructor
    · rintro (h | h)
      · exact ⟨[], c :: t, rfl, h⟩
      · obtain ⟨pre, suf, heq, hm⟩ := ih.mp h
        exact ⟨c :: pre, suf, by rw [heq]; rfl, hm⟩
    · rintro ⟨pre, suf, heq, hm⟩
      cases pre with
      | nil =>
        left
        rw [List.nil_append] at heq
        rw [← heq] at hm
        exact hm
      | cons a pre2 =>
        right
        injection heq with e1 e2
        exact ih.mpr ⟨pre2, suf, e2, hm⟩

/-- The source's `re.search(r'\d+[\.,]\d{2}', line)` succeeds exactly on
lines containing a decimal-shaped price token. -/
theorem searchPrice_iff_token (l : List Char) :
    searchPrice l = true ↔ specHasPriceToken l := by
  rw [searchPrice_iff_from]
  constructor
  · rintro ⟨pre, suf, heq, hm⟩
    obtain ⟨ds, r, heq2, hne, hall, ht⟩ := (matchPriceFrom_iff suf).mp hm
    obtain ⟨sep, d1, d2, post, heq3, hsep, h1, h2⟩ := (matchPriceTail_iff r).mp ht
    exact ⟨pre, ds, sep, d1, d2, post, by rw [heq, heq2, heq3]; simp [List.append_assoc], hne, hall, hsep, h1, h2⟩
  · rintro ⟨pre, ds, sep, d1, d2, post, heq, hne, hall, hsep, h1, h2⟩
    refine ⟨pre, ds ++ sep :: d1 :: d2 :: post, by rw [heq, List.append_assoc], ?_⟩
    exact (matchPriceFrom_iff _).mpr ⟨ds, sep :: d1 :: d2 :: post, rfl, hne, hall,
      (matchPriceTail_iff _).mpr ⟨sep, d1, d2, post, rfl, hsep, h1, h2⟩⟩

/-- A window found in a suffix is found in the whole line. -/
theorem specPriceWindow_cons (c : Char) {l : List Char}
    (h : specPriceWindow l = true) : specPriceWindow (c :: l) = true := by
  match l with
  | [] => simp [specPriceWindow] at h
  | [a] => simp [specPriceWindow] at h
  | [a, b] => simp [specPriceWindow] at h
  | a :: b :: d :: e :: r =>
    have hunf : specPriceWindow (c :: a :: b :: d :: e :: r) =
        ((pyIsDigit c && (a = '.' || a = ',') && pyIsDigit b && pyIsDigit d) ||
          specPriceWindow (a :: b :: d :: e :: r)) := rfl
    rw [hunf, h, Bool.or_true]

/-- A window found after a prefix is found in the whole line. -/
theorem specPriceWindow_append (q : List Char) {l : List Char}
    (h : specPriceWindow l = true) : specPriceWindow (q ++ l) = true := by
  induction q with
  | nil => exact h
  | cons c q2 ih => exact specPriceWindow_cons c ih

/-- A line starting with digit, separator, digit, digit has a window. -/
theorem specPriceWindow_head (d0 sep d1 d2 : Char) (post : List Char)
    (hd0 : pyIsDigit d0 = true) (hsep : sep = '.' ∨ sep = ',')
    (h1 : pyIsDigit d1 = true) (h2 : pyIsDigit d2 = true) :
    specPriceWindow (d0 :: sep :: d1 :: d2 :: post) = true := by
  have hunf : specPriceWindow (d0 :: sep :: d1 :: d2 :: post) =
      ((pyIsDigit d0 && (sep = '.' || sep = ',') && pyIsDigit d1 && pyIsDigit d2) ||
        specPriceWindow (sep :: d1 :: d2 :: post)) := rfl
  rw [hunf, hd0, h1, h2]
  rcases hsep with h | h <;> simp [h]

/-- A token in the declarative sense yields a window. -/
theorem specPriceWindow_of_token {l : List Char} (h : specHasPriceToken l) :
    specPriceWindow l = true := by
  obtain ⟨pre, ds, sep, d1, d2, post, heq, hne, hall, hsep, h1, h2⟩ := h
  obtain ⟨ds2, d0, rfl⟩ := (List.eq_nil_or_concat ds).resolve_left hne
  have hd0 : pyIsDigit d0 = true := by
    rw [List.all_eq_true] at hall
    exact hall d0 (by simp)
  have harr : l = (pre ++ ds2) ++ (d0 :: sep :: d1 :: d2 :: post) := by
    rw [heq]; simp [List.append_assoc]
  rw [harr]
  exact specPriceWindow_append _ (specPriceWindow_head d0 sep d1 d2 post hd0 hsep h1 h2)

/-- A window yields a token in the declarative sense. -/
theorem token_of_specPriceWindow (l : List Char) (h : specPriceWindow l = true) :
    specHasPriceToken l := by
  induction l with
  | nil => simp [specPriceWindow] at h
  | cons a t ih =>
    rcases t with - | ⟨b, t⟩
    · simp [specPriceWindow] at h
    rcases t with - | ⟨c, t⟩
    · simp [specPriceWindow] at h
    rcases t with - | ⟨d, t⟩
    · simp [specPriceWindow] at h
    have hunf : specPriceWindow (a :: b :: c :: d :: t) =
        ((pyIsDigit a && (b = '.' || b = ',') && pyIsDigit c && pyIsDigit d) ||
          specPriceWindow (b :: c :: d :: t)) := rfl
    rw [hunf, Bool.or_eq_true] at h
    rcases h with h | h
    · simp only [Bool.and_eq_true, Bool.or_eq_true, decide_eq_true_eq] at h
      exact ⟨[], [a], b, c, d, t, rfl, by simp, by simp [h.1.1.1], h.1.1.2, h.1.2, h.2⟩
    · obtain ⟨pre, ds, sep, d1, d2, post, heq, hne, hall, hsep, h1, h2⟩ := ih h
      exact ⟨a :: pre, ds, sep, d1, d2, post, congrArg (List.cons a) heq, hne,
        hall, hsep, h1, h2⟩

/-- The regex search and the specification scan agree on every line. -/
theorem searchPrice_eq_specPriceWindow (l : List Char) :
    searchPrice l = specPriceWindow l := by
  cases hs : searchPrice l <;> cases hw : specPriceWindow l <;> try rfl
  · have h2 := (searchPrice_iff_token l).mpr (token_of_specPriceWindow l hw)
    rw [hs] at h2
    cases h2
  · have h2 := specPriceWindow_of_token ((searchPrice_iff_token l).mp hs)
    rw [hw] at h2
    cases h2

/-! ## Claim theorems -/

/-- C1: for every raw text crossing the recognizer boundary, the pipeline
is a total function whose result carries all of the fields fecha, vendedor,
total, articulos and texto_crudo (each present, the last four always
populated) together with a boolean es_valido; no failure path exists in the
extraction core. -/
theorem process_receipt_complete_record (t : String) :
    (process_receipt t).fecha = extract_spanish_date t ∧
    (process_receipt t).vendedor = some (extract_vendor t) ∧
    (process_receipt t).total = some (extract_total t) ∧
    (process_receipt t).articulos = some (extract_items t) ∧
    (process_receipt t).texto_crudo = some t ∧
    ((process_receipt t).es_valido = true ∨ (process_receipt t).es_valido = false) :=
  ⟨rfl, rfl, rfl, rfl, rfl, Bool.eq_false_or_eq_true _⟩

/-- C2: in every record produced by validate_receipt_data, the es_valido
flag is true exactly when the campos_faltantes list is empty. -/
theorem validate_es_valido_iff_no_missing (d : ReceiptData) :
    (validate_receipt_data d).es_valido = true ↔
      (validate_receipt_data d).campos_faltantes = [] := by
  cases h1 : fechaFieldValid d.fecha <;>
  cases h2 : foundFieldValid d.vendedor <;>
  cases h3 : foundFieldValid d.total <;>
  simp [validate_receipt_data, h1, h2, h3]

/-- C3 counterexample: on a document whose total line is TOTAL $12.930 and
whose only other number is smaller, extract_total returns the sentinel
TOTAL NO ENCONTRADO, not $12.930 as the claim states; the integer-grouped
amount matches none of the three decimal-currency patterns. -/
theorem extract_total_claim_counterexample :
    extract_total "RECIBO 123\nTOTAL $12.930" = "TOTAL NO ENCONTRADO" ∧
    ("TOTAL NO ENCONTRADO" : String) ≠ "$12.930" := by
  exact ⟨by decide, by decide⟩

/-- C3 amended: extract_total scans the keyword-anchored lines (total,
pagar, importe) and then the whole text for the first amount of a
decimal-currency shape (1.000,00, $ 1.000,00, or 1,000.00 before end, a
euro sign or usd) and reformats it as a dollar sign, the integer part and
two comma-separated decimals; grouped integers without a two-digit decimal
part, such as TOTAL $12.930 or a bare 5000, match nothing and produce the
sentinel. -/
theorem extract_total_behavior_amended :
    extract_total "RECIBO 123\nTOTAL $12.930" = "TOTAL NO ENCONTRADO" ∧
    extract_total "5000" = "TOTAL NO ENCONTRADO" ∧
    extract_total "TOTAL 1.000,00" = "$1000,00" ∧
    extract_total "TOTAL A PAGAR $ 1.250,50" = "$1250,50" := by
  exact ⟨by decide, by decide, by decide, by decide⟩

/-- C4: evaluation of the date extractor at the four specified inputs.  The
first normalizes as claimed; 15 de julio de 2023 and 15 jul. 2023 keep the
month text verbatim (the text-month branch tests the whitespace-split
length of the regex source string, which is always 1); and 26-06-25 matches
no pattern at all (the DD/MM/YY pattern was lost by the missing comma that
merged it into the pattern before it), so the 30 pivot is unreachable. -/
theorem extract_spanish_date_bug_eval :
    extract_spanish_date "26/06/2025" = some "26/06/2025" ∧
    extract_spanish_date "15 de julio de 2023" = some "15/julio/2023" ∧
    extract_spanish_date "15 jul. 2023" = some "15/jul./2023" ∧
    extract_spanish_date "26-06-25" = none := by
  exact ⟨by decide, by decide, by decide, by decide⟩

/-- C5 counterexample: with the single OCR-style substitution the claim
itself offers, the extractor does not return the first content line
exactly: the digit is stripped by the cleanup step, and no fuzzy keyword
stage exists to return the line verbatim. -/
theorem extract_vendor_fuzzy_counterexample :
    extract_vendor "SUPERMERCAD0 LA ECONOMIA" = "SUPERMERCAD LA ECONOMIA" ∧
    ("SUPERMERCAD LA ECONOMIA" : String) ≠ "SUPERMERCAD0 LA ECONOMIA" := by
  exact ⟨by decide, by decide⟩

/-- C5 amended: the vendor extractor has no fuzzy stage; it returns the
first stripped line longer than three characters containing no blacklisted
word, with any NIT/Nit/RUT/RUC suffix cut and every digit removed.  The
clean first line SUPERMERCADO LA ECONOMIA is returned exactly, but the
OCR-corrupted variant loses its digit. -/
theorem extract_vendor_first_line_amended :
    extract_vendor "SUPERMERCADO LA ECONOMIA" = "SUPERMERCADO LA ECONOMIA" ∧
    extract_vendor "SUPERMERCAD0 LA ECONOMIA" = "SUPERMERCAD LA ECONOMIA" := by
  exact ⟨by decide, by decide⟩

/-- C6 counterexample: the full month name enero is not resolved to 01; it
is copied verbatim into the result. -/
theorem month_resolution_counterexample :
    extract_spanish_date "15 de enero de 2023" = some "15/enero/2023" ∧
    some ("15/enero/2023" : String) ≠ some "15/01/2023" := by
  exact ⟨by decide, by decide⟩

/-- C6 amended: no month resolution happens.  The branch guarding the
resolution code compares the whitespace-split length of the regex source
string against 4, and every pattern string is a single whitespace-free
token, so the branch is never taken; consequently every full month name,
and likewise every matched abbreviation, appears verbatim (unresolved) in
the output, and the 01 fallback the claim describes does not exist in the
reachable code. -/
theorem month_passthrough_amended :
    (DATE_PATTERNS.all fun p => (pySplitWs p.1.data).length == 1) = true ∧
    (SPANISH_MONTHS.all fun m =>
      extract_spanish_date ("15 de " ++ m ++ " de 2023") ==
        some ("15/" ++ m ++ "/2023")) = true ∧
    extract_spanish_date "15 ene. 2023" = some "15/ene./2023" := by
  exact ⟨by decide, by decide, by decide⟩

/-- C7: the vendor extractor returns a nonempty string on every input, and
whenever no line passes its filter (in particular on an input with no
non-blank lines) it returns the fixed sentinel Vendedor desconocido. -/
theorem extract_vendor_nonempty (text : String) :
    extract_vendor text ≠ "" ∧
    (((splitOnCharL '\n' text.data).all fun l => !vendorLineOk l) = true →
      extract_vendor text = "Vendedor desconocido") := by
  constructor
  · exact extract_vendorL_ne_nil _
  · intro h
    rw [List.all_eq_true] at h
    exact extract_vendorL_all_bad _ fun l hl => by simpa using h l hl

/-- C7 witness: the all-blank input. -/
theorem extract_vendor_nonempty_witness :
    extract_vendor "" = "Vendedor desconocido" :=
  (extract_vendor_nonempty "").2 (by decide)

/-- C8: the item extractor equals its specification-side restatement (keep
the lines containing a decimal-shaped price token, normalized and
newline-joined, with the sentinel when none qualifies), and the source's
regex search succeeds exactly on lines containing such a token. -/
theorem extract_items_refines_spec :
    (∀ text, extract_items text = spec_extract_items text) ∧
    ∀ l : List Char, searchPrice l = true ↔ specHasPriceToken l := by
  constructor
  · intro text
    simp only [extract_items, spec_extract_items]
    rw [List.filter_congr fun l _ => searchPrice_eq_specPriceWindow l]
  · exact searchPrice_iff_token

/-- C9: validation copies every pre-validation field unchanged into its
result and only adds es_valido, campos_faltantes and validation_details
(the embedding is pure: the input record itself is never mutated). -/
theorem validate_preserves_fields (d : ReceiptData) :
    (validate_receipt_data d).fecha = d.fecha ∧
    (validate_receipt_data d).vendedor = d.vendedor ∧
    (validate_receipt_data d).total = d.total ∧
    (validate_receipt_data d).articulos = d.articulos ∧
    (validate_receipt_data d).texto_crudo = d.texto_crudo :=
  ⟨rfl, rfl, rfl, rfl, rfl⟩

/-- C10: whenever the vendor extractor returns a line-derived value (not
one of its two sentinel strings), the result contains no decimal digit:
every digit run was stripped before returning. -/
theorem vendor_digit_free (text : String)
    (h1 : extract_vendor text ≠ "Vendedor desconocido")
    (h2 : extract_vendor text ≠ "VENDEDOR NO ENCONTRADO") :
    ((extract_vendor text).data.all fun c => !pyIsDigit c) = true := by
  rcases extract_vendorL_spec (splitOnCharL '\n' text.data) with h | h | ⟨l, h, -⟩
  · exact absurd h h1
  · exact absurd h h2
  · rw [show extract_vendor text = extract_vendorL (splitOnCharL '\n' text.data)
      from rfl, h]
    exact pyStripL_all (subDigits_no_digit _)

/-- C10 witness: a clean line-derived vendor value. -/
theorem vendor_digit_free_witness :
    ((extract_vendor "TIENDA AZUL").data.all fun c => !pyIsDigit c) = true :=
  vendor_digit_free "TIENDA AZUL" (by decide) (by decide)
